import Mathlib

/-!
Verification of the telemetry recorder in `record data/standalone-recorder_v2.py`.

The recorder polls MTConnect-style HTTP sources, parses XML snapshots into flat
key/value samples, deduplicates them against a per-source `last_sequence` table,
buffers them with an overflow bound, and flushes them to per-machine per-day
`.jsonl` files, persisting the dedup table after flushes.

The embedding below translates each function of the source file into Lean:
machine-level effects (network, clock, filesystem) are passed in explicitly as
data (parse outcomes, write-success oracles), and Python dicts are modelled as
association lists with first-match lookup and replace-or-append update, which
matches insertion-ordered Python dicts with unique keys.
-/

namespace MshRecorder

/-- A Python scalar value as produced by the recorder's extraction code:
`int`, `float` (modelled exactly as a rational, since the parsed decimal
literals and the arithmetic used here are exact), `str`, or `None`. -/
inductive PyVal where
  | int (n : Int)
  | float (q : Rat)
  | str (s : String)
  | none
deriving DecidableEq, Repr

/-- The whitespace characters Python `str.strip()` and the numeric
constructors ignore. -/
def isPySpace (c : Char) : Bool :=
  c == ' ' || c == '\t' || c == '\n' || c == '\r' || c == '\x0b' || c == '\x0c'

/-- Python `str.strip()`: remove leading and trailing whitespace. -/
def pyStrip (s : String) : String :=
  String.mk (((s.toList.dropWhile isPySpace).reverse.dropWhile
    isPySpace).reverse)

/-- Value of a nonempty all-digit character list, `none` otherwise.
Building block for the models of Python `int()` / `float()` on strings. -/
def digitsVal : List Char → Option Nat
  | [] => Option.none
  | [c] => if c.isDigit then Option.some (c.toNat - 48) else Option.none
  | c :: rest =>
      match digitsVal rest, c.isDigit with
      | Option.some n, true =>
          Option.some ((c.toNat - 48) * 10 ^ rest.length + n)
      | _, _ => Option.none

/-- Model of Python `int(s)` on a string: surrounding whitespace ignored,
optional sign, then decimal digits; anything else raises `ValueError`
(returns `none` here).  Underscore separators and non-decimal bases are not
modelled; no input in this development uses them. -/
def pyParseInt (s : String) : Option Int :=
  match (pyStrip s).toList with
  | '-' :: rest => (digitsVal rest).map (fun n => -(n : Int))
  | '+' :: rest => (digitsVal rest).map (fun n => (n : Int))
  | l => (digitsVal l).map (fun n => (n : Int))

/-- Digit-list value allowing the empty list (contributing value 0),
together with the number of digits seen. -/
def digitsValD : List Char → Option (Nat × Nat)
  | [] => Option.some (0, 0)
  | c :: rest =>
      match digitsValD rest, c.isDigit with
      | Option.some (n, k), true =>
          Option.some ((c.toNat - 48) * 10 ^ rest.length + n, k + 1)
      | _, _ => Option.none

/-- Split a character list on the `.` character (every occurrence). -/
def splitDot : List Char → List (List Char)
  | [] => [[]]
  | c :: rest =>
      let r := splitDot rest
      if c = '.' then [] :: r
      else
        match r with
        | h :: t => (c :: h) :: t
        | [] => [[c]]

/-- Model of Python `float(s)` on a string: surrounding whitespace ignored,
optional sign, then digits with an optional decimal point where at least one
digit must be present overall (`"1."`, `".5"`, `"7"` all parse).  Exponents,
`inf` and `nan` are not modelled; no input in this development uses them. -/
def pyParseFloat (s : String) : Option Rat :=
  let core : List Char → Option Rat := fun l =>
    match splitDot l with
    | [a] => (digitsVal a).map (fun n => (n : Rat))
    | [a, b] =>
        match digitsValD a, digitsValD b with
        | Option.some (na, ka), Option.some (nb, kb) =>
            if ka + kb = 0 then Option.none
            else Option.some ((na : Rat) + (nb : Rat) / (10 ^ kb : Rat))
        | _, _ => Option.none
    | _ => Option.none
  match (pyStrip s).toList with
  | '-' :: rest => (core rest).map (fun q => -q)
  | '+' :: rest => core rest
  | l => core l

/-- `try_number` (source lines 53–62): `None` stays `None`; otherwise try
`int(val)`, then `float(val)`, then fall back to the string itself. -/
def try_number (val : Option String) : PyVal :=
  match val with
  | Option.none => PyVal.none
  | Option.some s =>
      match pyParseInt s with
      | Option.some n => PyVal.int n
      | Option.none =>
          match pyParseFloat s with
          | Option.some q => PyVal.float q
          | Option.none => PyVal.str s

/-- Python-dict lookup on an association list: first matching key. -/
def dictGet {α : Type} (d : List (String × α)) (k : String) : Option α :=
  (d.find? (fun p => p.1 == k)).map (fun p => p.2)

/-- Python-dict assignment `d[k] = v`: replace the first entry with key `k`
in place, or append a new entry when the key is absent. -/
def dictSet {α : Type} (d : List (String × α)) (k : String) (v : α) :
    List (String × α) :=
  match d with
  | [] => [(k, v)]
  | p :: rest =>
      if p.1 == k then (k, v) :: rest else p :: dictSet rest k v

/-- Python `d.update(entries)`: assign each entry in order. -/
def dictUpdate {α : Type} (d : List (String × α)) (entries : List (String × α)) :
    List (String × α) :=
  entries.foldl (fun acc p => dictSet acc p.1 p.2) d

/-- An XML element as exposed by `xml.etree.ElementTree`: a tag (namespaced
tags carry the `\x7buri\x7dLocal` form), attributes, optional text, children. -/
inductive XmlElem where
  | mk (tag : String) (attrs : List (String × String)) (text : Option String)
       (children : List XmlElem)
deriving Repr

def XmlElem.tag : XmlElem → String
  | .mk t _ _ _ => t

def XmlElem.attrs : XmlElem → List (String × String)
  | .mk _ a _ _ => a

def XmlElem.text : XmlElem → Option String
  | .mk _ _ x _ => x

def XmlElem.children : XmlElem → List XmlElem
  | .mk _ _ _ cs => cs

/-- `el.attrib.get(k)`. -/
def attrGet (el : XmlElem) (k : String) : Option String :=
  dictGet el.attrs k

mutual
/-- All proper descendants of an element in document (preorder) order,
as enumerated by an ElementTree `.//` search. -/
def XmlElem.descendants : XmlElem → List XmlElem
  | .mk _ _ _ cs => descendantsList cs

def descendantsList : List XmlElem → List XmlElem
  | [] => []
  | c :: cs => c :: (XmlElem.descendants c ++ descendantsList cs)
end

/-- `root.findall(".//" + t)`: every descendant whose tag is `t`,
in document order. -/
def findallTag (root : XmlElem) (t : String) : List XmlElem :=
  root.descendants.filter (fun c => c.tag == t)

/-- `root.find(".//" + t)`: the first such descendant, if any. -/
def findTag (root : XmlElem) (t : String) : Option XmlElem :=
  (findallTag root t).head?

/-- `root.findall(".//" + t + "/*")`: the children of every matching
descendant, flattened in document order. -/
def childrenOfTag (root : XmlElem) (t : String) : List XmlElem :=
  (findallTag root t).foldr (fun e acc => e.children ++ acc) []

/-- `el.tag.split("\x7d")[-1]`: the local name of a possibly-namespaced tag —
everything after the last `\x7d`, or the whole tag when there is none. -/
def localName (tag : String) : String :=
  String.mk ((tag.toList.reverse.takeWhile (fun c => !(c == '\x7d'))).reverse)

/-- The qualified search tag built by `extract_mtconnect_values` (lines 98–107):
when the root tag starts with `\x7b`, the namespace URI is
`root.tag.split("\x7d")[0].strip("\x7b")` and lookups use `\x7buri\x7dtag`;
otherwise lookups use the bare tag. -/
def qualify (root : XmlElem) (tag : String) : String :=
  match root.tag.toList with
  | '\x7b' :: _ =>
      let beforeClose := root.tag.toList.takeWhile (fun c => !(c == '\x7d'))
      let ns_uri := ((beforeClose.dropWhile (fun c => c == '\x7b')).reverse.dropWhile
        (fun c => c == '\x7b')).reverse
      "\x7b" ++ String.mk ns_uri ++ "\x7d" ++ tag
  | _ => tag

/-- Field-name derivation for one Samples/Events child (line 121):
`el.attrib.get("name") or el.attrib.get("dataItemId") or el.tag.split("\x7d")[-1]`.
Python `or` skips a value that is `None` **or** the empty string. -/
def elemKey (nameA dataA : Option String) (tag : String) : String :=
  match nameA with
  | Option.some s =>
      if s ≠ "" then s
      else
        match dataA with
        | Option.some t => if t ≠ "" then t else localName tag
        | Option.none => localName tag
  | Option.none =>
      match dataA with
      | Option.some t => if t ≠ "" then t else localName tag
      | Option.none => localName tag

/-- Text normalisation for one child (line 122):
`el.text.strip() if el.text else None` — a missing or empty (falsy) text node
becomes `None`, anything else is whitespace-stripped. -/
def elemText (t : Option String) : Option String :=
  match t with
  | Option.none => Option.none
  | Option.some s => if s = "" then Option.none else Option.some (pyStrip s)

/-- The (key, value) pair recorded for one Samples/Events child (lines 121–123). -/
def elemEntry (el : XmlElem) : String × PyVal :=
  (elemKey (attrGet el "name") (attrGet el "dataItemId") el.tag,
   try_number (elemText el.text))

/-- The children of the Samples and Events sections, in processing order
(lines 119–120). -/
def sampleEventChildren (root : XmlElem) : List XmlElem :=
  childrenOfTag root (qualify root "Samples") ++
    childrenOfTag root (qualify root "Events")

/-- The (key, value) pair recorded for one Condition child (lines 126–129):
same key derivation, but the value is the local tag name (the status word). -/
def condEntry (el : XmlElem) : String × PyVal :=
  (elemKey (attrGet el "name") (attrGet el "dataItemId") el.tag,
   PyVal.str (localName el.tag))

/-- Header processing of `extract_mtconnect_values` (lines 109–113): locate
the first `Header` descendant; when it carries a `lastSequence` attribute,
`int(seq)` either yields the initial `out` entry or raises `ValueError`
(modelled as `none`, caught by the enclosing handler with `out` still
empty). -/
def header_sequence (root : XmlElem) : Option (List (String × PyVal)) :=
  match findTag root (qualify root "Header") with
  | Option.some h =>
      match attrGet h "lastSequence" with
      | Option.some s =>
          match pyParseInt s with
          | Option.some n => Option.some [("sequence", PyVal.int n)]
          | Option.none => Option.none   -- int(seq) raised ValueError
      | Option.none => Option.some []
  | Option.none => Option.some []

/-- The body of `extract_mtconnect_values` after a successful
`ET.fromstring` (lines 98–129), with the `out` dict threaded explicitly.
The second component records whether the body raised (only `int(seq)` on a
non-numeric `lastSequence` attribute can): the exception is caught by the
enclosing handler, which returns the `out` accumulated so far — at that
point still empty. -/
def extract_core (root : XmlElem) (include_condition : Bool) :
    List (String × PyVal) × Bool :=
  match header_sequence root with
  | Option.none => ([], true)
  | Option.some out0 =>
      let out1 := (sampleEventChildren root).foldl
        (fun o el => dictSet o (elemEntry el).1 (elemEntry el).2) out0
      let out2 :=
        if include_condition then
          (childrenOfTag root (qualify root "Condition")).foldl
            (fun o el => dictSet o (condEntry el).1 (condEntry el).2) out1
        else out1
      (out2, false)

/-- `extract_mtconnect_values` (lines 91–135).  The outcome of
`ET.fromstring(xml_text)` is passed in as an `Except` value (`error` when the
text is malformed or partial XML and the library raises).  The function's
`try/except` swallows every exception and returns the accumulated `out`. -/
def extract_mtconnect_values (parsed : Except String XmlElem)
    (include_condition : Bool) : List (String × PyVal) :=
  match parsed with
  | Except.error _ => []                      -- fromstring raised; out = \x7b\x7d
  | Except.ok root => (extract_core root include_condition).1

/-- The recorder's configuration constants that the modelled functions read
(lines 22–30).  `BACKOFF_INITIAL` and `BACKOFF_MAX` are Python floats; the
values used (0.5 and 8.0) and the operations applied to them (doubling and
`min`) are exact in binary floating point, so they are modelled as rationals. -/
structure Config where
  MAX_BUFFER_SIZE : Nat
  BACKOFF_INITIAL : Rat
  BACKOFF_MAX : Rat
deriving Repr

/-- The constants of the source file: `MAX_BUFFER_SIZE = 50_000`,
`BACKOFF_INITIAL = 0.5`, `BACKOFF_MAX = 8.0`. -/
def srcConfig : Config :=
  { MAX_BUFFER_SIZE := 50000, BACKOFF_INITIAL := 1/2, BACKOFF_MAX := 8 }

/-- One buffered record.  In the source this is the parsed dict after the
fetch loop has set its `"sequence"`, `"timestamp"` and `"machine"` entries
(lines 156–160); the model splits those three reserved entries out of the
remaining extracted fields. -/
structure Sample where
  sequence : Int
  timestamp : String
  machine : String
  fields : List (String × PyVal)
deriving DecidableEq, Repr

/-- The guarded append of the fetch loop (lines 161–166): when the buffer
already holds at least `MAX_BUFFER_SIZE` entries, drop the oldest
`len(buffer) // 10 or 1` entries, then append the new one. -/
def bufferAppend {α : Type} (maxSize : Nat) (buf : List α) (x : α) : List α :=
  if buf.length ≥ maxSize then
    let drop := if buf.length / 10 = 0 then 1 else buf.length / 10
    buf.drop drop ++ [x]
  else
    buf ++ [x]

/-- The mutable state the fetch loop reads and writes: the per-source
`last_sequence` dedup table, the shared `buffer`, and the per-source
`per_source_backoff` delay table (lines 44–47). -/
structure RecorderState where
  last_sequence : List (String × Int)
  buffer : List Sample
  per_source_backoff : List (String × Rat)
deriving Repr

/-- The fetch loop's handling of one successfully fetched, parsed snapshot
for source `name` (lines 153–168).  `parsedSeq` is `parsed.get("sequence")`
(always an `int` when present, set from `Header/@lastSequence`);
`fields` are the remaining extracted entries; `ts` is the cycle timestamp.

- If the snapshot carries no sequence, synthesize
  `last_sequence.get(name, -1)` (line 156).
- Accept iff `seq is None or seq != last_sequence.get(name)` (line 158).
- On acceptance: stamp timestamp and machine, append to the buffer through
  the overflow guard, store the stamped sequence in `last_sequence`, and
  reset the source's backoff delay to `BACKOFF_INITIAL` (lines 159–168). -/
def process_snapshot (cfg : Config) (name ts : String) (parsedSeq : Option Int)
    (fields : List (String × PyVal)) (st : RecorderState) : RecorderState :=
  let stampedSeq : Int :=
    match parsedSeq with
    | Option.none => (dictGet st.last_sequence name).getD (-1)
    | Option.some s => s
  let accepted : Bool :=
    match parsedSeq with
    | Option.none => true
    | Option.some s => !(dictGet st.last_sequence name == Option.some s)
  if accepted then
    { last_sequence := dictSet st.last_sequence name stampedSeq
      buffer := bufferAppend cfg.MAX_BUFFER_SIZE st.buffer
        { sequence := stampedSeq, timestamp := ts, machine := name,
          fields := fields }
      per_source_backoff :=
        dictSet st.per_source_backoff name cfg.BACKOFF_INITIAL }
  else
    st

/-- The fetch loop's failure handler for one source (lines 169–174):
double the source's backoff delay, cap it at `BACKOFF_MAX`, store it, and
sleep for the **updated** delay.  Returns the new table and the slept
duration.  The table is seeded with `BACKOFF_INITIAL` for every source at
startup (line 46), so the lookup default is never used for a real source. -/
def on_fetch_failure (cfg : Config) (name : String)
    (backoff : List (String × Rat)) : List (String × Rat) × Rat :=
  let b := (dictGet backoff name).getD cfg.BACKOFF_INITIAL
  let b2 := min (b * 2) cfg.BACKOFF_MAX
  (dictSet backoff name b2, b2)

/-- The successive sleep durations produced by `n` consecutive fetch
failures for one source whose current delay is `b`. -/
def failure_waits (cfg : Config) (b : Rat) : Nat → List Rat
  | 0 => []
  | n + 1 =>
      let b2 := min (b * 2) cfg.BACKOFF_MAX
      b2 :: failure_waits cfg b2 n

/-- A JSON value as returned by `json.load`, restricted to the shapes the
state file can hold. -/
inductive JVal where
  | jint (n : Int)
  | jstr (s : String)
  | jobj (entries : List (String × JVal))
deriving Repr

/-- `state_save` (lines 81–88): serialize the `last_sequence` dict to the
state file (via a temp file and an atomic rename, not modelled further). -/
def state_save (m : List (String × Int)) : JVal :=
  JVal.jobj (m.map (fun p => (p.1, JVal.jint p.2)))

/-- `int(v)` applied to a JSON value in the state-load comprehension:
integers pass through; strings go through the string parse; anything else
raises. -/
def pyIntOfJVal : JVal → Option Int
  | JVal.jint n => Option.some n
  | JVal.jstr s => pyParseInt s
  | JVal.jobj _ => Option.none

/-- Convert every entry's value with `int(v)`, or fail if any raises. -/
def jEntriesToInts : List (String × JVal) → Option (List (String × Int))
  | [] => Option.some []
  | (k, v) :: rest =>
      match pyIntOfJVal v, jEntriesToInts rest with
      | Option.some n, Option.some tail => Option.some ((k, n) :: tail)
      | _, _ => Option.none

/-- `state_load` (lines 67–79): if the state file is missing, keep the
current table; otherwise parse it, and when it holds a dict whose values all
convert with `int`, merge it into `last_sequence` with `dict.update`.  A
conversion failure raises inside the `try`, is caught, and leaves the table
unchanged (the comprehension builds the whole dict before `update` runs). -/
def state_load (file : Option JVal) (current : List (String × Int)) :
    List (String × Int) :=
  match file with
  | Option.none => current
  | Option.some (JVal.jobj data) =>
      match jEntriesToInts data with
      | Option.some entries => dictUpdate current entries
      | Option.none => current
  | Option.some _ => current              -- isinstance(data, dict) is False

/-- `DATA_DIR/<machine>/<YYYY-MM-DD>.jsonl` for one drained entry
(lines 193–203): the day is the first ten characters of the timestamp
(`ts_str[:10]`); the machine and timestamp fields are always present on a
buffered sample, so the `.get` defaults do not fire. -/
def entryPath (dataDir : String) (e : Sample) : String :=
  dataDir ++ "/" ++ e.machine ++ "/" ++ String.mk (e.timestamp.toList.take 10)
    ++ ".jsonl"

/-- The drain step of `flush_buffer_to_disk` (line 190):
`to_write, buffer[:] = buffer, []`.  Python evaluates the right-hand tuple
and then assigns the targets left to right: `to_write = buffer` binds
`to_write` to the **same list object** as `buffer`, and `buffer[:] = []`
then clears that object in place.  Both names therefore denote the empty
list after the statement, and the drained samples are lost.  Returns
(value of `to_write`, value of `buffer`) after both assignments. -/
def drain_buffer (buf : List Sample) : List Sample × List Sample :=
  let _sharedObject := buf            -- to_write = buffer: one shared object
  let cleared : List Sample := []     -- buffer[:] = []: cleared in place
  (cleared, cleared)

/-- The per-entry write loop of `flush_buffer_to_disk` over `to_write`
(lines 192–211).  For each entry, `ensure_dir(DATA_DIR/<machine>)` runs
**outside** the per-entry `try` (line 203), so a directory-creation failure
(the oracle `mkdirOk` on the directory path) raises and aborts the whole
loop; the error carries the appends performed before it.  Only the
open-and-write sits inside the `try` (the oracle `writeOk`): its failure is
logged and that entry alone is dropped.  On success, returns the appends
(file path, entry) in loop order together with the `written` counter. -/
def writeEntries (dataDir : String) (mkdirOk : String → Bool)
    (writeOk : Sample → Bool) :
    List Sample →
      Except (List (String × Sample)) (List (String × Sample) × Nat)
  | [] => Except.ok ([], 0)
  | e :: rest =>
      if mkdirOk (dataDir ++ "/" ++ e.machine) then
        let here : List (String × Sample) :=
          if writeOk e then [(entryPath dataDir e, e)] else []
        let inc : Nat := if writeOk e then 1 else 0
        match writeEntries dataDir mkdirOk writeOk rest with
        | Except.ok (ws, n) => Except.ok (here ++ ws, inc + n)
        | Except.error ws => Except.error (here ++ ws)
      else Except.error []

/-- Result of one `flush_buffer_to_disk` call that returns normally: the
buffer it leaves behind, the appends it performed, and whether it rewrote
the state file. -/
structure FlushResult where
  buffer : List Sample
  writes : List (String × Sample)
  state_saved : Bool
deriving DecidableEq, Repr

/-- `flush_buffer_to_disk` (lines 185–216): an empty buffer returns at
once; otherwise line 190 drains the buffer — but, through the aliasing
described at `drain_buffer`, leaves `to_write` empty, losing the drained
samples — then runs the write loop over `to_write` and calls `state_save()`
only when the `written` counter is non-zero (`if written:`, line 213).  An
uncaught exception from the write loop propagates to the caller
(`Except.error`, carrying the appends performed before the raise). -/
def flush_buffer_to_disk (dataDir : String) (mkdirOk : String → Bool)
    (writeOk : Sample → Bool) (buf : List Sample) :
    Except (List (String × Sample)) FlushResult :=
  if buf.isEmpty then
    Except.ok { buffer := buf, writes := [], state_saved := false }
  else
    let d := drain_buffer buf
    match writeEntries dataDir mkdirOk writeOk d.1 with
    | Except.ok (ws, n) =>
        Except.ok { buffer := d.2, writes := ws, state_saved := decide (0 < n) }
    | Except.error ws => Except.error ws

/-! ### Spec-side definitions used only to state the claims under review -/

/-- Field-name rule exactly as the claim under review words it: prefer the
`name` attribute whenever it is present (even empty), then `dataItemId`,
then the local tag name. -/
def elemKeyClaimed (nameA dataA : Option String) (tag : String) : String :=
  match nameA with
  | Option.some s => s
  | Option.none =>
      match dataA with
      | Option.some t => t
      | Option.none => localName tag

/-- The value the parser records for one child's text node
(`try_number(el.text.strip() if el.text else None)`, lines 122–123). -/
def elemVal (t : Option String) : PyVal :=
  try_number (elemText t)

/-- Field-value rule exactly as the claim under review words it: from the
element's text as given, integer parse, then float parse, then the raw
string; missing or empty text yields null. -/
def elemValClaimed (t : Option String) : PyVal :=
  match t with
  | Option.none => PyVal.none
  | Option.some s =>
      if s = "" then PyVal.none
      else
        match pyParseInt s with
        | Option.some n => PyVal.int n
        | Option.none =>
            match pyParseFloat s with
            | Option.some q => PyVal.float q
            | Option.none => PyVal.str s

/-! ### Helper lemmas -/

theorem dictGet_dictSet_self {α : Type} (d : List (String × α)) (k : String)
    (v : α) : dictGet (dictSet d k v) k = Option.some v := by
  induction d with
  | nil => simp [dictGet, dictSet]
  | cons p rest ih =>
      by_cases h : p.1 = k
      · simp [dictGet, dictSet, h]
      · have hb : (p.1 == k) = false := by simp [h]
        simp only [dictSet, hb, Bool.false_eq_true, if_false]
        simp only [dictGet] at ih ⊢
        rw [List.find?_cons_of_neg _ (by simp [hb])]
        exact ih

theorem dictSet_of_not_mem {α : Type} (d : List (String × α)) (k : String)
    (v : α) (h : k ∉ d.map Prod.fst) : dictSet d k v = d ++ [(k, v)] := by
  induction d with
  | nil => rfl
  | cons p rest ih =>
      simp only [List.map_cons, List.mem_cons, not_or] at h
      simp [dictSet, beq_iff_eq, Ne.symm h.1, ih h.2]

theorem dictUpdate_of_disjoint {α : Type} (m : List (String × α)) :
    ∀ acc : List (String × α),
      (∀ k, k ∈ m.map Prod.fst → k ∉ acc.map Prod.fst) →
      (m.map Prod.fst).Nodup → dictUpdate acc m = acc ++ m := by
  induction m with
  | nil => intro acc _ _; simp [dictUpdate]
  | cons p rest ih =>
      intro acc hdisj hnd
      obtain ⟨k, v⟩ := p
      simp only [List.map_cons, List.nodup_cons] at hnd
      have hk : k ∉ acc.map Prod.fst := hdisj k (by simp)
      have step : dictUpdate acc ((k, v) :: rest) =
          dictUpdate (acc ++ [(k, v)]) rest := by
        simp [dictUpdate, dictSet_of_not_mem acc k v hk]
      rw [step, ih (acc ++ [(k, v)])]
      · simp
      · intro k2 hk2
        simp only [List.map_append, List.map_cons, List.map_nil,
          List.mem_append, List.mem_singleton, not_or]
        refine ⟨hdisj k2 (by simp [hk2]), ?_⟩
        intro heq
        exact hnd.1 (heq ▸ hk2)
      · exact hnd.2

theorem jEntriesToInts_state_save (m : List (String × Int)) :
    jEntriesToInts (m.map (fun p => (p.1, JVal.jint p.2))) = Option.some m := by
  induction m with
  | nil => rfl
  | cons p rest ih => simp [jEntriesToInts, pyIntOfJVal, ih]

theorem state_load_state_save (m : List (String × Int))
    (hnd : (m.map Prod.fst).Nodup) :
    state_load (Option.some (state_save m)) [] = m := by
  simp only [state_load, state_save, jEntriesToInts_state_save]
  simpa using dictUpdate_of_disjoint m [] (by simp) hnd

/-! ### Claim theorems -/

/-- Claim C1: for a source whose last accepted sequence is `L`, a snapshot
carrying sequence `s` is accepted — stamped with the timestamp and machine
name and appended to the buffer, with the stored last-accepted value
becoming `s` — precisely when `s ≠ L`; when `s = L` the state is unchanged.
In particular a sequence smaller than `L` is accepted as-is. -/
theorem c1_dedup_accept_iff (cfg : Config) (name ts : String) (s L : Int)
    (fields : List (String × PyVal)) (st : RecorderState)
    (h : dictGet st.last_sequence name = Option.some L) :
    (s = L → process_snapshot cfg name ts (Option.some s) fields st = st) ∧
    (s ≠ L →
      (process_snapshot cfg name ts (Option.some s) fields st).buffer =
        bufferAppend cfg.MAX_BUFFER_SIZE st.buffer
          { sequence := s, timestamp := ts, machine := name, fields := fields } ∧
      dictGet (process_snapshot cfg name ts (Option.some s) fields
          st).last_sequence name = Option.some s) := by
  constructor
  · intro hs
    subst hs
    simp [process_snapshot, h]
  · intro hs
    have hb : (dictGet st.last_sequence name == Option.some s) = false := by
      simp [h, Ne.symm hs]
    refine ⟨?_, ?_⟩
    · simp [process_snapshot, hb]
    · simp [process_snapshot, hb, dictGet_dictSet_self]

/-- Concrete instance of C1 (the spec's own example): last accepted 100,
sequence 100 is rejected, sequence 101 is accepted and becomes the stored
value. -/
theorem c1_dedup_accept_iff_witness :
    (process_snapshot srcConfig "A" "t0" (Option.some 100) []
        ⟨[("A", 100)], [], []⟩ = ⟨[("A", 100)], [], []⟩) ∧
    ((process_snapshot srcConfig "A" "t0" (Option.some 101) []
        ⟨[("A", 100)], [], []⟩).buffer =
      bufferAppend srcConfig.MAX_BUFFER_SIZE []
        { sequence := 101, timestamp := "t0", machine := "A", fields := [] } ∧
     dictGet (process_snapshot srcConfig "A" "t0" (Option.some 101) []
        ⟨[("A", 100)], [], []⟩).last_sequence "A" = Option.some 101) :=
  ⟨(c1_dedup_accept_iff srcConfig "A" "t0" 100 100 [] ⟨[("A", 100)], [], []⟩
      (by decide)).1 rfl,
   (c1_dedup_accept_iff srcConfig "A" "t0" 101 100 [] ⟨[("A", 100)], [], []⟩
      (by decide)).2 (by decide)⟩

/-- Claim C3: a snapshot carrying no sequence for a source whose previously
accepted sequence is `L` is still accepted and recorded with synthesized
sequence `L`, and the stored last-accepted value stays `L`. -/
theorem c3_heartbeat (cfg : Config) (name ts : String) (L : Int)
    (fields : List (String × PyVal)) (st : RecorderState)
    (h : dictGet st.last_sequence name = Option.some L) :
    (process_snapshot cfg name ts Option.none fields st).buffer =
      bufferAppend cfg.MAX_BUFFER_SIZE st.buffer
        { sequence := L, timestamp := ts, machine := name, fields := fields } ∧
    dictGet (process_snapshot cfg name ts Option.none fields
        st).last_sequence name = Option.some L := by
  constructor
  · simp [process_snapshot, h]
  · simp [process_snapshot, h, dictGet_dictSet_self]

/-- Concrete instance of C3: previously accepted 7, sequence-less snapshot
recorded with sequence 7, stored value still 7. -/
theorem c3_heartbeat_witness :
    (process_snapshot srcConfig "A" "t0" Option.none []
        ⟨[("A", 7)], [], []⟩).buffer =
      bufferAppend srcConfig.MAX_BUFFER_SIZE []
        { sequence := 7, timestamp := "t0", machine := "A", fields := [] } ∧
    dictGet (process_snapshot srcConfig "A" "t0" Option.none []
        ⟨[("A", 7)], [], []⟩).last_sequence "A" = Option.some 7 :=
  c3_heartbeat srcConfig "A" "t0" 7 [] ⟨[("A", 7)], [], []⟩ (by decide)

/-- Claim C10: with no previously accepted sequence for the source and no
sequence in the snapshot, the synthesized sentinel is `-1`: the recorded
sample carries sequence `-1` and the stored last-accepted value becomes
`-1`. -/
theorem c10_heartbeat_sentinel (cfg : Config) (name ts : String)
    (fields : List (String × PyVal)) (st : RecorderState)
    (h : dictGet st.last_sequence name = Option.none) :
    (process_snapshot cfg name ts Option.none fields st).buffer =
      bufferAppend cfg.MAX_BUFFER_SIZE st.buffer
        { sequence := -1, timestamp := ts, machine := name, fields := fields } ∧
    dictGet (process_snapshot cfg name ts Option.none fields
        st).last_sequence name = Option.some (-1) := by
  constructor
  · simp [process_snapshot, h]
  · simp [process_snapshot, h, dictGet_dictSet_self]

/-- Concrete instance of C10: empty dedup table, sequence-less snapshot
recorded with sequence `-1`. -/
theorem c10_heartbeat_sentinel_witness :
    (process_snapshot srcConfig "VTC" "t0" Option.none []
        ⟨[], [], []⟩).buffer =
      bufferAppend srcConfig.MAX_BUFFER_SIZE []
        { sequence := -1, timestamp := "t0", machine := "VTC", fields := [] } ∧
    dictGet (process_snapshot srcConfig "VTC" "t0" Option.none []
        ⟨[], [], []⟩).last_sequence "VTC" = Option.some (-1) :=
  c10_heartbeat_sentinel srcConfig "VTC" "t0" [] ⟨[], [], []⟩ (by decide)

theorem min_double (x D : Rat) (hD : 0 ≤ D) :
    min (min x D * 2) D = min (x * 2) D := by
  rcases le_total x D with h | h
  · rw [min_eq_left h]
  · rw [min_eq_right h, min_eq_right (by linarith : D ≤ D * 2),
      min_eq_right (by linarith : D ≤ x * 2)]

/-- Claim C2 as stated is false: the failure handler doubles the delay
**before** sleeping, so with the source's constants (minimum 0.5, cap 8)
three consecutive failures sleep 1, 2, 4 — not 0.5, 1, 2 as the claim
predicts.  Moreover a fetch success whose snapshot is a duplicate does not
reset the delay (the reset sits inside the acceptance branch): after the
delay reached 4, a successful duplicate fetch leaves it at 4. -/
theorem c2_backoff_counterexample :
    failure_waits srcConfig srcConfig.BACKOFF_INITIAL 3 = [1, 2, 4] ∧
    failure_waits srcConfig srcConfig.BACKOFF_INITIAL 3 ≠
      [srcConfig.BACKOFF_INITIAL, srcConfig.BACKOFF_INITIAL * 2,
       srcConfig.BACKOFF_INITIAL * 4] ∧
    dictGet (process_snapshot srcConfig "A" "t0" (Option.some 5) []
        ⟨[("A", 5)], [], [("A", 4)]⟩).per_source_backoff "A" =
      Option.some 4 := by
  refine ⟨?_, ?_, by decide⟩
  · norm_num [failure_waits, srcConfig, min_def]
  · norm_num [failure_waits, srcConfig, min_def]

/-- Claim C2 amended: for a source at the configured minimum delay `d` with
cap `D`, three consecutive fetch failures make the poller wait
`min (2·d) D`, then `min (4·d) D`, then `min (8·d) D` (the delay is doubled
and capped before each sleep), and a subsequent successful fetch whose
snapshot is accepted resets the stored delay to `d`. -/
theorem c2_backoff_corrected (cfg : Config) (hD : 0 ≤ cfg.BACKOFF_MAX) :
    failure_waits cfg cfg.BACKOFF_INITIAL 3 =
      [min (cfg.BACKOFF_INITIAL * 2) cfg.BACKOFF_MAX,
       min (cfg.BACKOFF_INITIAL * 4) cfg.BACKOFF_MAX,
       min (cfg.BACKOFF_INITIAL * 8) cfg.BACKOFF_MAX] ∧
    (∀ (name ts : String) (s : Int) (fields : List (String × PyVal))
        (st : RecorderState),
      dictGet st.last_sequence name ≠ Option.some s →
      dictGet (process_snapshot cfg name ts (Option.some s) fields
          st).per_source_backoff name = Option.some cfg.BACKOFF_INITIAL) := by
  constructor
  · simp only [failure_waits]
    have e1 : min (min (cfg.BACKOFF_INITIAL * 2) cfg.BACKOFF_MAX * 2)
        cfg.BACKOFF_MAX = min (cfg.BACKOFF_INITIAL * 4) cfg.BACKOFF_MAX := by
      rw [min_double _ _ hD]
      congr 1
      ring
    rw [e1]
    have e2 : min (min (cfg.BACKOFF_INITIAL * 4) cfg.BACKOFF_MAX * 2)
        cfg.BACKOFF_MAX = min (cfg.BACKOFF_INITIAL * 8) cfg.BACKOFF_MAX := by
      rw [min_double _ _ hD]
      congr 1
      ring
    rw [e2]
  · intro name ts s fields st h
    have hb : (dictGet st.last_sequence name == Option.some s) = false := by
      simpa using h
    simp [process_snapshot, hb, dictGet_dictSet_self]

/-- Concrete instance of amended C2 at the source's constants: waits 1, 2, 4
and an accepted success resets the delay to 0.5. -/
theorem c2_backoff_corrected_witness :
    failure_waits srcConfig srcConfig.BACKOFF_INITIAL 3 =
      [min (srcConfig.BACKOFF_INITIAL * 2) srcConfig.BACKOFF_MAX,
       min (srcConfig.BACKOFF_INITIAL * 4) srcConfig.BACKOFF_MAX,
       min (srcConfig.BACKOFF_INITIAL * 8) srcConfig.BACKOFF_MAX] ∧
    dictGet (process_snapshot srcConfig "B" "t1" (Option.some 9) []
        ⟨[], [], [("B", 8)]⟩).per_source_backoff "B" =
      Option.some srcConfig.BACKOFF_INITIAL :=
  ⟨(c2_backoff_corrected srcConfig (by norm_num [srcConfig])).1,
   (c2_backoff_corrected srcConfig (by norm_num [srcConfig])).2 "B" "t1" 9 []
     ⟨[], [], [("B", 8)]⟩ (by decide)⟩

/-- Claim C5: the parser never raises to its caller — the `try/except`
catches every exception — and on malformed or partial XML (where
`ET.fromstring` raises) it returns the empty mapping; the same holds in the
only other raising situation, a non-integer `lastSequence` attribute, where
the exception strikes before any entry is added to `out`. -/
theorem c5_malformed_yields_empty :
    (∀ (e : String) (inc : Bool),
      extract_mtconnect_values (Except.error e) inc = []) ∧
    (∀ (root : XmlElem) (inc : Bool), (extract_core root inc).2 = true →
      extract_mtconnect_values (Except.ok root) inc = []) := by
  constructor
  · intro e inc
    rfl
  · intro root inc h
    cases hA : header_sequence root with
    | none => simp [extract_mtconnect_values, extract_core, hA]
    | some out0 => simp [extract_core, hA] at h

/-- Concrete instance of C5: a malformed document, and a document whose
`Header` carries the non-numeric `lastSequence="oops"`, both produce the
empty mapping. -/
theorem c5_malformed_yields_empty_witness :
    extract_mtconnect_values (Except.error "not well-formed") false = [] ∧
    extract_mtconnect_values
      (Except.ok (XmlElem.mk "MTConnectStreams" [] Option.none
        [XmlElem.mk "Header" [("lastSequence", "oops")] Option.none []]))
      false = [] :=
  ⟨c5_malformed_yields_empty.1 "not well-formed" false,
   c5_malformed_yields_empty.2
     (XmlElem.mk "MTConnectStreams" [] Option.none
       [XmlElem.mk "Header" [("lastSequence", "oops")] Option.none []])
     false (by decide)⟩

/-- Claim C6: a single guarded append never leaves the buffer above the
configured bound; an append from a buffer already at (or above) the bound
first evicts the oldest `max (len/10) 1` entries — the oldest roughly 10%,
at least one — and the result is always a suffix of the old entries in
arrival order with the new entry appended last. -/
theorem c6_buffer_overflow (maxSize : Nat) (buf : List Sample) (x : Sample)
    (hmax : 1 ≤ maxSize) (hlen : buf.length ≤ maxSize) :
    (bufferAppend maxSize buf x).length ≤ maxSize ∧
    (maxSize ≤ buf.length →
      bufferAppend maxSize buf x =
        buf.drop (max (buf.length / 10) 1) ++ [x]) ∧
    (buf.length < maxSize → bufferAppend maxSize buf x = buf ++ [x]) := by
  have hdropeq : (if buf.length / 10 = 0 then 1 else buf.length / 10) =
      max (buf.length / 10) 1 := by
    by_cases h : buf.length / 10 = 0
    · simp [h]
    · simp only [h, if_false]
      omega
  refine ⟨?_, ?_, ?_⟩
  · by_cases hge : buf.length ≥ maxSize
    · have heq : buf.length = maxSize := le_antisymm hlen hge
      simp only [bufferAppend, hge, if_pos, List.length_append,
        List.length_drop, List.length_cons, List.length_nil]
      have h1 : 1 ≤ (if buf.length / 10 = 0 then 1 else buf.length / 10) := by
        by_cases h : buf.length / 10 = 0
        · simp [h]
        · simp only [h, if_false]
          omega
      omega
    · simp only [bufferAppend, hge, if_neg, not_false_iff, List.length_append,
        List.length_cons, List.length_nil]
      omega
  · intro hge
    simp [bufferAppend, hge, hdropeq]
  · intro hlt
    have hne : ¬ buf.length ≥ maxSize := by omega
    simp [bufferAppend, hne]

/-- Concrete instance of C6: bound 3, full buffer of three entries; the
append evicts one oldest entry and the result holds the latest entries
ending with the new one, within the bound. -/
theorem c6_buffer_overflow_witness :
    (bufferAppend 3 [⟨1, "a", "M", []⟩, ⟨2, "b", "M", []⟩, ⟨3, "c", "M", []⟩]
        (⟨4, "d", "M", []⟩ : Sample)).length ≤ 3 ∧
    bufferAppend 3 [⟨1, "a", "M", []⟩, ⟨2, "b", "M", []⟩, ⟨3, "c", "M", []⟩]
        (⟨4, "d", "M", []⟩ : Sample) =
      [⟨1, "a", "M", []⟩, ⟨2, "b", "M", []⟩,
        ⟨3, "c", "M", []⟩].drop (max (3 / 10) 1) ++ [⟨4, "d", "M", []⟩] :=
  ⟨(c6_buffer_overflow 3 [⟨1, "a", "M", []⟩, ⟨2, "b", "M", []⟩,
      ⟨3, "c", "M", []⟩] ⟨4, "d", "M", []⟩ (by decide) (by decide)).1,
   (c6_buffer_overflow 3 [⟨1, "a", "M", []⟩, ⟨2, "b", "M", []⟩,
      ⟨3, "c", "M", []⟩] ⟨4, "d", "M", []⟩ (by decide) (by decide)).2.1
     (by decide)⟩

/-- Claim C4 as stated is false on two edge cases: an element whose `name`
attribute is present but **empty** falls through to `dataItemId` (Python
`or` treats `""` as false), and the string fallback is the
whitespace-stripped text, not the raw text. -/
theorem c4_field_derivation_counterexample :
    elemKey (Option.some "") (Option.some "x7") "Load" ≠
      elemKeyClaimed (Option.some "") (Option.some "x7") "Load" ∧
    elemVal (Option.some " abc ") ≠ elemValClaimed (Option.some " abc ") := by
  refine ⟨by decide, by decide⟩

/-- Claim C4 amended: the field name prefers a present **non-empty** `name`
attribute, then a present non-empty `dataItemId` attribute, then the local
tag name; the field value is derived from the whitespace-stripped element
text by attempting integer parse, then float parse, then falling back to
that stripped string, and a missing or empty text node yields null. -/
theorem c4_field_derivation_corrected (nameA dataA : Option String)
    (tag : String) :
    (∀ s, nameA = Option.some s → s ≠ "" → elemKey nameA dataA tag = s) ∧
    ((nameA = Option.none ∨ nameA = Option.some "") →
      ∀ t, dataA = Option.some t → t ≠ "" → elemKey nameA dataA tag = t) ∧
    ((nameA = Option.none ∨ nameA = Option.some "") →
      (dataA = Option.none ∨ dataA = Option.some "") →
      elemKey nameA dataA tag = localName tag) ∧
    elemVal Option.none = PyVal.none ∧
    (∀ s : String, elemVal (Option.some s) =
      if s = "" then PyVal.none
      else
        match pyParseInt (pyStrip s) with
        | Option.some n => PyVal.int n
        | Option.none =>
            match pyParseFloat (pyStrip s) with
            | Option.some q => PyVal.float q
            | Option.none => PyVal.str (pyStrip s)) := by
  refine ⟨?_, ?_, ?_, rfl, ?_⟩
  · intro s hn hs
    subst hn
    simp [elemKey, hs]
  · intro hn t hd ht
    subst hd
    rcases hn with hn | hn
    · subst hn
      simp [elemKey, ht]
    · subst hn
      simp [elemKey, ht]
  · intro hn hd
    rcases hn with hn | hn
    · subst hn
      rcases hd with hd | hd
      · subst hd
        simp [elemKey]
      · subst hd
        simp [elemKey]
    · subst hn
      rcases hd with hd | hd
      · subst hd
        simp [elemKey]
      · subst hd
        simp [elemKey]
  · intro s
    by_cases hs : s = ""
    · simp [elemVal, elemText, hs, try_number]
    · simp [elemVal, elemText, hs, try_number]

/-- Concrete instances of amended C4: each preference level, and a numeric
text value with surrounding whitespace. -/
theorem c4_field_derivation_corrected_witness :
    elemKey (Option.some "Execution") (Option.some "x1") "Tg" = "Execution" ∧
    elemKey (Option.some "") (Option.some "x1") "Tg" = "x1" ∧
    elemKey Option.none Option.none "\x7bu\x7dExecution" = "Execution" ∧
    elemVal (Option.some " 42 ") = PyVal.int 42 :=
  ⟨(c4_field_derivation_corrected (Option.some "Execution") (Option.some "x1")
      "Tg").1 "Execution" rfl (by decide),
   (c4_field_derivation_corrected (Option.some "") (Option.some "x1")
      "Tg").2.1 (Or.inr rfl) "x1" rfl (by decide),
   ((c4_field_derivation_corrected Option.none Option.none
      "\x7bu\x7dExecution").2.2.1 (Or.inl rfl) (Or.inl rfl)).trans (by decide),
   ((c4_field_derivation_corrected Option.none Option.none
      "Tg").2.2.2.2 " 42 ").trans (by decide)⟩

/-- Claim C7 is right and the code is wrong: because the drain on line 190
leaves `to_write` empty (see `drain_buffer`), the `written` counter is
always zero and `state_save()` never runs — no flush, whatever the buffer
held and however the filesystem behaves, ever rewrites the PersistedState
file. -/
theorem c7_flush_never_saves_state (dataDir : String)
    (mkdirOk : String → Bool) (writeOk : Sample → Bool) (buf : List Sample) :
    (flush_buffer_to_disk dataDir mkdirOk writeOk buf).map
      FlushResult.state_saved = Except.ok false := by
  by_cases h : buf.isEmpty
  · simp [flush_buffer_to_disk, h, Except.map]
  · simp [flush_buffer_to_disk, h, drain_buffer, writeEntries, Except.map]

/-- Claim C8 is right and the code is wrong: the same aliasing on line 190
empties `to_write`, so the write loop iterates zero times — a flush appends
**no** drained sample to any log file, whatever the filesystem oracles say,
while a non-empty buffer is still discarded.  (It also never raises, but
only because the loop body — including the `ensure_dir` that sits outside
the per-entry `try` — is never reached.) -/
theorem c8_flush_writes_nothing (dataDir : String) (mkdirOk : String → Bool)
    (writeOk : Sample → Bool) (buf : List Sample) :
    (flush_buffer_to_disk dataDir mkdirOk writeOk buf).map
      FlushResult.writes = Except.ok [] ∧
    (flush_buffer_to_disk dataDir mkdirOk writeOk buf).map
      FlushResult.buffer = Except.ok (if buf.isEmpty then buf else []) := by
  constructor
  · by_cases h : buf.isEmpty
    · simp [flush_buffer_to_disk, h, Except.map]
    · simp [flush_buffer_to_disk, h, drain_buffer, writeEntries, Except.map]
  · by_cases h : buf.isEmpty
    · simp [flush_buffer_to_disk, h, Except.map]
    · simp [flush_buffer_to_disk, h, drain_buffer, writeEntries, Except.map]

/-- Claim C9: saving the dedup table and loading it back restores the same
mapping, and with the restored table a replayed snapshot carrying the
persisted sequence for a source produces no new record while the next
sequence produces exactly one new record. -/
theorem c9_state_roundtrip_replay (m : List (String × Int))
    (hnd : (m.map Prod.fst).Nodup) (cfg : Config) (name ts : String)
    (fields : List (String × PyVal)) (s : Int) (buf : List Sample)
    (bk : List (String × Rat)) (hs : dictGet m name = Option.some s)
    (hbuf : buf.length < cfg.MAX_BUFFER_SIZE) :
    state_load (Option.some (state_save m)) [] = m ∧
    process_snapshot cfg name ts (Option.some s) fields
        ⟨state_load (Option.some (state_save m)) [], buf, bk⟩ =
      ⟨state_load (Option.some (state_save m)) [], buf, bk⟩ ∧
    (process_snapshot cfg name ts (Option.some (s + 1)) fields
        ⟨state_load (Option.some (state_save m)) [], buf, bk⟩).buffer =
      buf ++ [{ sequence := s + 1, timestamp := ts, machine := name,
                fields := fields }] := by
  have hrt : state_load (Option.some (state_save m)) [] = m :=
    state_load_state_save m hnd
  rw [hrt]
  refine ⟨rfl, ?_, ?_⟩
  · simp [process_snapshot, hs]
  · have hb : (dictGet m name == Option.some (s + 1)) = false := by
      rw [hs]
      simp only [beq_eq_false_iff_ne, ne_eq, Option.some.injEq]
      omega
    have hnb : ¬ buf.length ≥ cfg.MAX_BUFFER_SIZE := by omega
    simp [process_snapshot, hb, bufferAppend, hnb]

/-- Concrete instance of C9 (the spec's own example): persist `{"A": 42}`,
reload it, replay sequence 42 (no new record), then 42 + 1 (one record). -/
theorem c9_state_roundtrip_replay_witness :
    state_load (Option.some (state_save [("A", 42)])) [] = [("A", 42)] ∧
    process_snapshot srcConfig "A" "t2" (Option.some 42) []
        ⟨state_load (Option.some (state_save [("A", 42)])) [], [], []⟩ =
      ⟨state_load (Option.some (state_save [("A", 42)])) [], [], []⟩ ∧
    (process_snapshot srcConfig "A" "t2" (Option.some (42 + 1)) []
        ⟨state_load (Option.some (state_save [("A", 42)])) [], [], []⟩).buffer =
      [] ++ [{ sequence := 42 + 1, timestamp := "t2", machine := "A",
               fields := [] }] :=
  c9_state_roundtrip_replay [("A", 42)] (by decide) srcConfig "A" "t2" [] 42
    [] [] (by decide) (by decide)

end MshRecorder
